import Mathlib

/-!
Shallow embedding of the core of the `loadbalancer-rs` repository
(`src/connection.rs`, `src/driver.rs`, `src/driver_state.rs`), together
with theorems checking the natural-language specification against it.

Kernel-level socket behaviour (how many bytes a non-blocking `read` or
`write` call moves) is abstracted by numeric oracles: an oracle value `n`
stands for the byte count the corresponding syscall returns, with `0`
covering both `WouldBlock` and non-`WouldBlock` I/O errors, exactly the
cases in which the source's `absorb`/`pipe` helpers return `0`.
-/

/-- The width of `usize` on the 64-bit targets the crate builds for. -/
def usizeSize : Nat := 2 ^ 64

/-- `mio::Ready` together with the `UnixReady` extension bits used by the
source: `readable`, `writable` from `Ready`, `error` and `hup` from
`UnixReady`. -/
structure Ready where
  readable : Bool
  writable : Bool
  error : Bool
  hup : Bool
deriving DecidableEq, Repr

/-- `Ready::empty()`. -/
def Ready.emptySet : Ready := ⟨false, false, false, false⟩

/-- The singleton bitset `Ready::readable()`. -/
def Ready.readableOnly : Ready := ⟨true, false, false, false⟩

/-- `Ready::insert`: bitwise union of two readiness sets. -/
def Ready.insertBits (a b : Ready) : Ready :=
  ⟨a.readable || b.readable, a.writable || b.writable,
   a.error || b.error, a.hup || b.hup⟩

/-- `Ready::remove`: clear the bits of `b` from `a`. -/
def Ready.removeBits (a b : Ready) : Ready :=
  ⟨a.readable && !b.readable, a.writable && !b.writable,
   a.error && !b.error, a.hup && !b.hup⟩

/-- One `EndPoint` of `src/connection.rs`: the readiness state plus the
4096-byte buffer, tracked by its fill level `buffer_index`. The
`TcpStream` field is abstracted away; its I/O is supplied by oracles. -/
structure EndPoint where
  state : Ready
  buffer_index : Nat
deriving DecidableEq, Repr

/-- `EndPoint::new`: empty readiness, empty buffer. -/
def EndPoint.new : EndPoint := ⟨Ready.emptySet, 0⟩

/-- `EndPoint::absorb` (src/connection.rs:50-66): read into
`buf[buffer_index..]`; the kernel delivers at most the `avail` bytes it
has and at most the `4096 - buffer_index` bytes of space requested.
Returns `(n_read, new buffer_index)`; `WouldBlock` and read errors are
the `avail = 0` case (absorb returns 0 and leaves the index unchanged). -/
def EndPoint.absorb (buffer_index : Nat) (avail : Nat) : Nat × Nat :=
  let n_read := min avail (4096 - buffer_index)
  (n_read, buffer_index + n_read)

/-- `EndPoint::pipe` (src/connection.rs:68-88): write `buf[0..size]`; the
kernel accepts at most `accept` bytes. Returns `n_written`; a short write
only logs `"do not support shorten writeen"`. `WouldBlock` and write
errors are the `accept = 0` case. -/
def EndPoint.pipe (size : Nat) (accept : Nat) : Nat := min accept size

/-- Read phase of `Connection::tick` for one endpoint: if READABLE is
set, absorb from the stream and then remove READABLE (unconditionally,
even when zero bytes were read). -/
def EndPoint.absorbStep (p : EndPoint) (avail : Nat) : EndPoint :=
  if p.state.readable then
    { p with buffer_index := (EndPoint.absorb p.buffer_index avail).2,
             state := p.state.removeBits Ready.readableOnly }
  else p

/-- The `Connection` of `src/connection.rs`: `points[0]` is
`EndPointType::Front` (client side), `points[1]` is `EndPointType::Back`
(upstream side), plus the stored outgoing slab token. -/
structure Connection where
  front : EndPoint
  back : EndPoint
  backend_token : Nat
deriving DecidableEq, Repr

/-- `Connection::new`: both endpoints fresh (the two `TcpStream`
arguments are abstracted away), remembering the outgoing token. -/
def Connection.new (outgoing_token : Nat) : Connection :=
  ⟨EndPoint.new, EndPoint.new, outgoing_token⟩

/-- `Connection::incoming_ready`: OR the event bits into the front
half's readiness. -/
def Connection.incoming_ready (c : Connection) (events : Ready) : Connection :=
  { c with front := { c.front with state := c.front.state.insertBits events } }

/-- `Connection::outgoing_ready`: OR the event bits into the back
half's readiness. -/
def Connection.outgoing_ready (c : Connection) (events : Ready) : Connection :=
  { c with back := { c.back with state := c.back.state.insertBits events } }

/-- `Connection::is_incoming_closed`: ERROR or HUP on the front half. -/
def Connection.is_incoming_closed (c : Connection) : Bool :=
  c.front.state.error || c.front.state.hup

/-- `Connection::is_outgoing_closed`: ERROR or HUP on the back half. -/
def Connection.is_outgoing_closed (c : Connection) : Bool :=
  c.back.state.error || c.back.state.hup

/-- `Connection::outgoing_token`. -/
def Connection.outgoing_token (c : Connection) : Nat := c.backend_token

/-- Byte counts the kernel would move for each of the four possible
syscalls during one `tick`: reads from the two streams and writes to the
two streams. `0` covers `WouldBlock` and error returns. -/
structure TickEnv where
  frontRead : Nat
  backRead : Nat
  backWrite : Nat
  frontWrite : Nat
deriving DecidableEq, Repr

/-- Result of one `Connection::tick`: the mutated connection, the
returned `sended` flag, and the byte counts the two `pipe` calls
reported (ignored by the source, recorded here to reason about them). -/
structure TickResult where
  conn : Connection
  sended : Bool
  wroteToBack : Nat
  wroteToFront : Nat
deriving DecidableEq, Repr

/-- `Connection::tick` (src/connection.rs:144-182), in source order:
first the read loop over `[front, back]` (absorb then clear READABLE),
then pipe front buffer to the back stream when the front buffer is
non-empty and the back half is WRITABLE (resetting `buffer_index` to 0
and setting `sended` regardless of how many bytes the write accepted),
then symmetrically back buffer to the front stream. WRITABLE is never
cleared. -/
def Connection.tick (c : Connection) (io : TickEnv) : TickResult :=
  let front := c.front.absorbStep io.frontRead
  let back := c.back.absorbStep io.backRead
  let pipe1 := front.buffer_index > 0 && back.state.writable
  let wToBack := if pipe1 then EndPoint.pipe front.buffer_index io.backWrite else 0
  let front := if pipe1 then { front with buffer_index := 0 } else front
  let pipe2 := back.buffer_index > 0 && front.state.writable
  let wToFront := if pipe2 then EndPoint.pipe back.buffer_index io.frontWrite else 0
  let back := if pipe2 then { back with buffer_index := 0 } else back
  { conn := { c with front := front, back := back },
    sended := pipe1 || pipe2,
    wroteToBack := wToBack,
    wroteToFront := wToFront }

/-- The three token variants of `src/connection.rs`. -/
inductive TokenType where
  | listener (slot : Nat)
  | incoming (slot : Nat)
  | outgoing (slot : Nat)
deriving DecidableEq, Repr

/-- The slot index carried by a token. -/
def TokenType.slot : TokenType → Nat
  | .listener s => s
  | .incoming s => s
  | .outgoing s => s

/-- `ListenerToken::as_raw_token`: `Token(self.0 << 2)` on `usize`. -/
def ListenerToken.as_raw_token (s : Nat) : Nat := (s * 4) % usizeSize

/-- `IncomingToken::as_raw_token`: `Token((self.0 << 2) + 1)`. -/
def IncomingToken.as_raw_token (s : Nat) : Nat := (s * 4) % usizeSize + 1

/-- `OutgoingToken::as_raw_token`: `Token((self.0 << 2) + 2)`. -/
def OutgoingToken.as_raw_token (s : Nat) : Nat := (s * 4) % usizeSize + 2

/-- Encoding of a token into the raw poller integer. -/
def TokenType.as_raw_token : TokenType → Nat
  | .listener s => ListenerToken.as_raw_token s
  | .incoming s => IncomingToken.as_raw_token s
  | .outgoing s => OutgoingToken.as_raw_token s

/-- `TokenType::from_raw_token` (src/connection.rs:260-269): dispatch on
`i & 3`, slot is `i >> 2`; the `3` case is `unreachable!()`, modelled as
`none`. -/
def TokenType.from_raw_token (i : Nat) : Option TokenType :=
  match i % 4 with
  | 0 => some (.listener (i / 4))
  | 1 => some (.incoming (i / 4))
  | 2 => some (.outgoing (i / 4))
  | _ => none

/-- Resolved socket addresses; the model only compares them, so the
textual representation suffices. -/
abbrev SockAddr := String

/-- Default address used by total list indexing; never reached when the
source's `len(targets) >= 1` invariant holds. -/
def noAddr : SockAddr := ""

/-- The `slab` crate's `Slab<T, I>` as used by the source:
`new_starting_at(start, capacity)` allocates indices in
`[start, start + capacity)`, `insert` takes the lowest free index and
fails when all of them are occupied. Occupied slots are the association
list `entries`. -/
structure Slab (α : Type) where
  start : Nat
  capacity : Nat
  entries : List (Nat × α)
deriving DecidableEq, Repr

/-- `Slab::get`. -/
def Slab.get {α : Type} (s : Slab α) (t : Nat) : Option α :=
  (s.entries.find? (fun p => p.1 == t)).map (fun p => p.2)

/-- Slot occupancy test. -/
def Slab.containsSlot {α : Type} (s : Slab α) (t : Nat) : Bool :=
  (s.entries.find? (fun p => p.1 == t)).isSome

/-- In-place mutation of an occupied slot (`get_mut` / `IndexMut`). -/
def Slab.setSlot {α : Type} (s : Slab α) (t : Nat) (v : α) : Slab α :=
  { s with entries := s.entries.map (fun p => if p.1 == t then (t, v) else p) }

/-- `Slab::remove`: returns the removed value, or `none` if the slot is
empty. -/
def Slab.removeSlot {α : Type} (s : Slab α) (t : Nat) : Option (α × Slab α) :=
  match s.get t with
  | some v => some (v, { s with entries := s.entries.filter (fun p => p.1 != t) })
  | none => none

/-- The lowest free index of the slab, if any. -/
def Slab.freeIndex {α : Type} (s : Slab α) : Option Nat :=
  (List.range' s.start s.capacity).find? (fun i => ! s.containsSlot i)

/-- `Slab::insert`: place the value into the lowest free slot; `none`
models the `Err`/`None` "buffer full" result. -/
def Slab.insertVal {α : Type} (s : Slab α) (v : α) : Option (Nat × Slab α) :=
  s.freeIndex.map (fun i => (i, { s with entries := s.entries ++ [(i, v)] }))

/-- `Slab::insert_with`: like `insertVal`, but the value is built from
its own slot index. -/
def Slab.insert_with {α : Type} (s : Slab α) (f : Nat → α) : Option (Nat × Slab α) :=
  s.freeIndex.map (fun i => (i, { s with entries := s.entries ++ [(i, f i)] }))

/-- Modelled from the spec: the `Backend` round-robin router
(`{ targets, cursor }`) with its `next_target()` operation. The type the
driver snapshot calls (`Backend::new(target_addrs)` /
`decide_target()`) is not present under `src/` — `src/backend.rs` is an
unrelated earlier snapshot — so it is modelled from spec §3/§4.3:
return `targets[cursor]`, then advance `cursor := (cursor+1) mod
len(targets)`. -/
structure Backend where
  targets : List SockAddr
  cursor : Nat
deriving DecidableEq, Repr

/-- Modelled from the spec: `Backend::new` starts the round-robin cursor
at the head of the target list. -/
def Backend.new (target_addrs : List SockAddr) : Backend :=
  ⟨target_addrs, 0⟩

/-- Modelled from the spec: `next_target()` returns `targets[cursor]`
and advances the cursor modulo the list length. -/
def Backend.next_target (b : Backend) : SockAddr × Backend :=
  (b.targets.getD b.cursor noAddr,
   { b with cursor := (b.cursor + 1) % b.targets.length })

/-- The name `Driver::listener_ready` calls `next_target()` by. -/
def Backend.decide_target (b : Backend) : SockAddr × Backend :=
  b.next_target

/-- The stream of addresses produced by `n` successive `next_target()`
calls. -/
def Backend.run (b : Backend) : Nat → List SockAddr
  | 0 => []
  | n + 1 =>
    let r := b.next_target
    r.1 :: r.2.run n

/-- Modelled from the spec: the `Frontend` binding used by
`driver_state.rs` / `driver.rs` (`Frontend::new(listen_addr,
backends)`, `listen_addrs()`, `decide_backend()`); `src/frontend.rs` is
an unrelated earlier snapshot. Spec §3/§4.4: an immutable binding of one
listen address to backend routers. -/
structure FrontendM where
  listen_addr : SockAddr
  backends : List Backend
deriving DecidableEq, Repr

/-- Modelled from the spec: the listen addresses of a frontend (one). -/
def FrontendM.listen_addrs (f : FrontendM) : List SockAddr :=
  [f.listen_addr]

/-- Modelled from the spec: the backend router a frontend routes to. -/
def FrontendM.decide_backend (f : FrontendM) : Backend :=
  f.backends.getD 0 (Backend.new [])

/-- Replace the router returned by `decide_backend`; stands for the
mutation of the shared `Rc<RefCell<Backend>>` through the frontend. -/
def FrontendM.putBack (f : FrontendM) (b : Backend) : FrontendM :=
  { f with backends := [b] }

/-- The `Listener` of `src/driver_state.rs`: bound socket (abstracted),
listen address, frontend reference and own slab token. -/
structure ListenerM where
  listen_addr : SockAddr
  frontend : FrontendM
  token : Nat
deriving DecidableEq, Repr

/-- The kind of a poller call issued by the driver code. -/
inductive PollOpKind where
  | register
  | reregister
  | deregister
deriving DecidableEq, Repr

/-- One poller registration call: kind, raw token, interest bits and
`PollOpt` flags (all `false`/unused for `deregister`). -/
structure PollOp where
  kind : PollOpKind
  token : Nat
  readable : Bool
  writable : Bool
  edge : Bool
  oneshot : Bool
deriving DecidableEq, Repr

/-- The `Driver` of `src/driver.rs`: the re-registration set, the two
connection slabs, and the listener slab it reaches through its
`DriverState` (`self.state.listeners`). -/
structure Driver where
  to_reregister : List Nat
  incoming_connections : Slab Connection
  outgoing_connections_token : Slab (Option Nat)
  listeners : Slab ListenerM
deriving DecidableEq, Repr

/-- `HashSet::insert` on the model's `to_reregister` list. -/
def listInsert (t : Nat) (l : List Nat) : List Nat :=
  if l.contains t then l else t :: l

/-- How `Driver::listener_ready` ends: normally, via one of its logged
early returns, via its `assert!`, or via a `panic!` from
`.expect`/`.unwrap` on a full slab. -/
inductive LOutcome where
  | accepted
  | acceptError
  | connectError
  | unknownToken
  | assertFail
  | panickedOutgoingFull
  | panickedIncomingFull
deriving DecidableEq, Repr

/-- Result of one `Driver::listener_ready` call: the driver as mutated
up to the point the call ended, the poller calls it issued, and how it
ended. -/
structure LResult where
  driver : Driver
  ops : List PollOp
  outcome : LOutcome
deriving DecidableEq, Repr

/-- `Driver::listener_ready` (src/driver.rs:36-95). Oracles: `acceptOk`
is whether `listener.accept()` succeeded, `connectOk` whether
`TcpStream::connect` did. On success it inserts `None` into the
outgoing slab (panicking `"Outgoing buffer full"` when full), inserts
the new `Connection` into the incoming slab (panicking
`"Incoming buffer full"` when full, with the outgoing slot left
allocated), writes the reverse mapping, registers both new sockets for
READABLE|WRITABLE edge+oneshot, and re-registers the listener for
READABLE|WRITABLE edge+oneshot. -/
def Driver.listener_ready (d : Driver) (token : Nat) (event : Ready)
    (acceptOk connectOk : Bool) : LResult :=
  if !event.readable then ⟨d, [], .assertFail⟩
  else
    match d.listeners.get token with
    | none => ⟨d, [], .unknownToken⟩
    | some listener =>
      if !acceptOk then ⟨d, [], .acceptError⟩
      else
        let backend := listener.frontend.decide_backend
        let r := backend.decide_target
        let listener' := { listener with frontend := listener.frontend.putBack r.2 }
        let d := { d with listeners := d.listeners.setSlot token listener' }
        if !connectOk then ⟨d, [], .connectError⟩
        else
          match d.outgoing_connections_token.insertVal none with
          | none => ⟨d, [], .panickedOutgoingFull⟩
          | some (outgoing_token, outSlab) =>
            let d := { d with outgoing_connections_token := outSlab }
            match d.incoming_connections.insertVal (Connection.new outgoing_token) with
            | none => ⟨d, [], .panickedIncomingFull⟩
            | some (incoming_token, incSlab) =>
              let d := { d with
                incoming_connections := incSlab,
                outgoing_connections_token :=
                  d.outgoing_connections_token.setSlot outgoing_token (some incoming_token) }
              ⟨d,
               [⟨.register, IncomingToken.as_raw_token incoming_token, true, true, true, true⟩,
                ⟨.register, OutgoingToken.as_raw_token outgoing_token, true, true, true, true⟩,
                ⟨.reregister, ListenerToken.as_raw_token token, true, true, true, true⟩],
               .accepted⟩

/-- `Driver::remove_connection` (src/driver.rs:149-157): remove the
incoming slot, then remove the outgoing slot recorded in the removed
connection; `none` models the panics of the two `.expect` calls. -/
def Driver.remove_connection (d : Driver) (token : Nat) : Option Driver :=
  match d.incoming_connections.removeSlot token with
  | none => none
  | some (connection, incSlab) =>
    match d.outgoing_connections_token.removeSlot connection.outgoing_token with
    | none => none
    | some (_, outSlab) =>
      some { d with incoming_connections := incSlab,
                    outgoing_connections_token := outSlab }

/-- `Driver::incoming_ready` (src/driver.rs:97-116): merge the event
into the front half, `tick()`, then either remove the pair (no progress
and either half closed) or mark it dirty (progress made or event was
readable). `none` models the panic inside `remove_connection`. -/
def Driver.incoming_ready (d : Driver) (token : Nat) (ready : Ready)
    (io : TickEnv) : Option Driver :=
  match d.incoming_connections.get token with
  | none => some d
  | some connection =>
    let connection := connection.incoming_ready ready
    let r := connection.tick io
    let remove := !r.sended && (r.conn.is_incoming_closed || r.conn.is_outgoing_closed)
    let d := { d with incoming_connections := d.incoming_connections.setSlot token r.conn }
    let d := if !remove && (r.sended || ready.readable)
             then { d with to_reregister := listInsert token d.to_reregister }
             else d
    if remove then d.remove_connection token else some d

/-- `Driver::outgoing_ready` (src/driver.rs:118-147): look up the
incoming slot through the outgoing mapping; merge the event into the
back half, `tick()`; when no progress was made and the *outgoing* half
is closed, only null the outgoing mapping (`[token] = None`); when
progress was made, mark the pair dirty. -/
def Driver.outgoing_ready (d : Driver) (token : Nat) (ready : Ready)
    (io : TickEnv) : Driver :=
  match d.outgoing_connections_token.get token with
  | some (some incoming_token) =>
    match d.incoming_connections.get incoming_token with
    | some connection =>
      let connection := connection.outgoing_ready ready
      let r := connection.tick io
      let remove := !r.sended && r.conn.is_outgoing_closed
      let d := { d with incoming_connections :=
                  d.incoming_connections.setSlot incoming_token r.conn }
      let d := if !remove && r.sended
               then { d with to_reregister := listInsert incoming_token d.to_reregister }
               else d
      if remove
      then { d with outgoing_connections_token :=
              d.outgoing_connections_token.setSlot token none }
      else d
    | none => d
  | _ => d

/-- `config.rs`: `FrontendConfig { listen_addr, backend }`. -/
structure FrontendConfig where
  listen_addr : String
  backend : String
deriving DecidableEq, Repr

/-- `config.rs`: `BackendConfig { target_addrs }`. -/
structure BackendConfig where
  target_addrs : List String
deriving DecidableEq, Repr

/-- `config.rs`: `BufferConfig { connections, listeners }`. -/
structure BufferConfig where
  connections : Nat
  listeners : Nat
deriving DecidableEq, Repr

/-- `config.rs`: `RootConfig`; the `HashMap`s are modelled as
association lists iterated in list order. -/
structure RootConfig where
  frontends : List (String × FrontendConfig)
  backends : List (String × BackendConfig)
  buffers : BufferConfig
deriving DecidableEq, Repr

/-- The errors `DriverState::reconfigure` and its helpers surface.
`resolveFail` is the `IOResult` error `resolve_name` propagates;
`targetsNotFound` is `make_backend`'s `NotFound` error;
`missingBackend` stands for the panic of the `backends[&config.backend]`
indexing in `make_frontend` when the named backend does not exist. -/
inductive RErr where
  | resolveFail (s : String)
  | targetsNotFound
  | missingBackend (s : String)
  | bindFail (a : SockAddr)
  | listenerBufferFull
  | removeFail
deriving DecidableEq, Repr

/-- The errors caused by a failed name resolution. -/
def RErr.isResolutionErr : RErr → Bool
  | .resolveFail _ => true
  | .targetsNotFound => true
  | _ => false

/-- `make_backend` (src/driver_state.rs:128-147): resolve every target
(`flat_map` keeps the successes), fail with `NotFound` when any target
was dropped, otherwise build the router. The resolver oracle stands for
`resolve_name` (`to_socket_addrs` returning exactly one address);
`none` is its failure. -/
def make_backend (resolve : String → Option SockAddr) (config : BackendConfig) :
    Except RErr Backend :=
  let target_addrs := config.target_addrs.filterMap resolve
  if target_addrs.length != config.target_addrs.length
  then .error .targetsNotFound
  else .ok (Backend.new target_addrs)

/-- `make_frontend` (src/driver_state.rs:149-154): resolve the listen
address (`try!` propagates its failure first), then look up the named
router (a panic on a missing name, modelled as `missingBackend`). -/
def make_frontend (resolve : String → Option SockAddr)
    (backends : List (String × Backend)) (config : FrontendConfig) :
    Except RErr FrontendM :=
  match resolve config.listen_addr with
  | none => .error (.resolveFail config.listen_addr)
  | some addr =>
    match backends.find? (fun p => p.1 == config.backend) with
    | some p => .ok ⟨addr, [p.2]⟩
    | none => .error (.missingBackend config.backend)

/-- The first loop of `reconfigure`: build a router per backend entry,
stopping at the first failure (`try!`). -/
def makeBackends (resolve : String → Option SockAddr) :
    List (String × BackendConfig) → Except RErr (List (String × Backend))
  | [] => .ok []
  | (name, config) :: rest =>
    match make_backend resolve config with
    | .error e => .error e
    | .ok b =>
      match makeBackends resolve rest with
      | .error e => .error e
      | .ok bs => .ok ((name, b) :: bs)

/-- The second loop of `reconfigure`: build a frontend per frontend
entry against the fresh routers, stopping at the first failure. -/
def makeFrontends (resolve : String → Option SockAddr)
    (backends : List (String × Backend)) :
    List (String × FrontendConfig) → Except RErr (List (String × FrontendM))
  | [] => .ok []
  | (name, config) :: rest =>
    match make_frontend resolve backends config with
    | .error e => .error e
    | .ok f =>
      match makeFrontends resolve backends rest with
      | .error e => .error e
      | .ok fs => .ok ((name, f) :: fs)

/-- The `DriverState` of `src/driver_state.rs`: the three slabs. -/
structure DriverStateM where
  incoming_connections : Slab Connection
  outgoing_connections : Slab (Option Nat)
  listeners : Slab ListenerM
deriving DecidableEq, Repr

/-- `DriverState::new`: empty slabs starting at index 1 with the
configured capacities. -/
def DriverStateM.new (buffers : BufferConfig) : DriverStateM :=
  ⟨⟨1, buffers.connections, []⟩, ⟨1, buffers.connections, []⟩,
   ⟨1, buffers.listeners, []⟩⟩

/-- The diff loop of `reconfigure` (src/driver_state.rs:62-85):
`avail` is `listeners_by_addr` as the still-unmatched `(token, addr)`
pairs, `to_add` the `listeners_to_add` map (insert-replace keyed by
address). A frontend whose listen address matches an existing listener
rebinds that listener's `frontend` field in place and consumes the map
entry; otherwise the address is queued for binding. Returns the updated
slab, the leftover `avail` (whose tokens become `listeners_to_remove`)
and `to_add`. -/
def diffListeners (slab : Slab ListenerM) (avail : List (Nat × SockAddr))
    (to_add : List (SockAddr × FrontendM)) :
    List (String × FrontendM) →
    Slab ListenerM × List (Nat × SockAddr) × List (SockAddr × FrontendM)
  | [] => (slab, avail, to_add)
  | (_, f) :: rest =>
    match avail.find? (fun p => p.2 == f.listen_addr) with
    | some hit =>
      let rebind := fun (p : Nat × ListenerM) =>
        if p.1 == hit.1 then (p.1, { p.2 with frontend := f }) else p
      let slab := { slab with entries := slab.entries.map rebind }
      diffListeners slab (avail.filter (fun p => !(p.2 == f.listen_addr))) to_add rest
    | none =>
      let to_add := (to_add.filter (fun p => !(p.1 == f.listen_addr))) ++ [(f.listen_addr, f)]
      diffListeners slab avail to_add rest

/-- The bind loop of `reconfigure` (src/driver_state.rs:87-105): for
each new address, bind (the `bindOk` oracle is `TcpListener::bind`),
insert into the listener slab, and register the socket for READABLE,
edge-triggered (no oneshot). The first failure stops the loop with the
state mutated so far kept (`try!` on `&mut self`). -/
def bindLoop (bindOk : SockAddr → Bool) :
    List (SockAddr × FrontendM) → DriverStateM → List PollOp →
    DriverStateM × List PollOp × Option RErr
  | [], st, ops => (st, ops, none)
  | (addr, f) :: rest, st, ops =>
    if !bindOk addr then (st, ops, some (.bindFail addr))
    else
      match st.listeners.insert_with (fun token => ⟨addr, f, token⟩) with
      | none => (st, ops, some .listenerBufferFull)
      | some (token, slab) =>
        bindLoop bindOk rest { st with listeners := slab }
          (ops ++ [⟨.register, ListenerToken.as_raw_token token, true, false, true, false⟩])

/-- The removal loop of `reconfigure` (src/driver_state.rs:107-114):
each stale listener is removed from the slab and deregistered from the
poller immediately, inside the `reconfigure` call. -/
def removeLoop : List Nat → DriverStateM → List PollOp →
    DriverStateM × List PollOp × Option RErr
  | [], st, ops => (st, ops, none)
  | token :: rest, st, ops =>
    match st.listeners.removeSlot token with
    | none => (st, ops, some .removeFail)
    | some (_, slab) =>
      removeLoop rest { st with listeners := slab }
        (ops ++ [⟨.deregister, ListenerToken.as_raw_token token, false, false, false, false⟩])

/-- Outcome of one `reconfigure` call: its `IOResult`, the driver state
when the call returned (mutated in place on `&mut self`), and the
poller calls it issued. -/
structure RunResult where
  res : Except RErr Unit
  state : DriverStateM
  ops : List PollOp
deriving Repr

/-- `DriverState::reconfigure` (src/driver_state.rs:40-117): build the
routers, build the frontends (any failure aborts before any state is
touched), diff the listener set by address, bind-and-register the new
addresses, then remove-and-deregister the stale ones. -/
def DriverStateM.reconfigure (resolve : String → Option SockAddr)
    (bindOk : SockAddr → Bool) (st : DriverStateM) (config : RootConfig) :
    RunResult :=
  match makeBackends resolve config.backends with
  | .error e => ⟨.error e, st, []⟩
  | .ok backends =>
    match makeFrontends resolve backends config.frontends with
    | .error e => ⟨.error e, st, []⟩
    | .ok frontends =>
      let avail := st.listeners.entries.map (fun p => (p.1, p.2.listen_addr))
      let diffed := diffListeners st.listeners avail [] frontends
      let st := { st with listeners := diffed.1 }
      let listeners_to_remove := diffed.2.1.map (fun p => p.1)
      match bindLoop bindOk diffed.2.2 st [] with
      | (st, ops, some e) => ⟨.error e, st, ops⟩
      | (st, ops, none) =>
        match removeLoop listeners_to_remove st ops with
        | (st, ops, some e) => ⟨.error e, st, ops⟩
        | (st, ops, none) => ⟨.ok (), st, ops⟩

/-- A concrete resolved address for test fixtures. -/
def addrA : SockAddr := "10.0.0.1:8080"

/-- A concrete resolved target address for test fixtures. -/
def addrT : SockAddr := "10.0.0.2:9090"

/-- A frontend fixture routing `addrA` to a single-target router. -/
def lbFrontend : FrontendM := ⟨addrA, [Backend.new [addrT]]⟩

/-- A listener fixture occupying listener slot 1. -/
def lbListener : ListenerM := ⟨addrA, lbFrontend, 1⟩

/-- The readiness set carrying only HUP. -/
def Ready.hupOnly : Ready := ⟨false, false, false, true⟩

/-- A `TickEnv` in which every syscall moves zero bytes. -/
def noEnv : TickEnv := ⟨0, 0, 0, 0⟩

/-- A connection with 2 bytes queued toward the outgoing half and the
outgoing half WRITABLE. -/
def shortWriteConn : Connection :=
  ⟨⟨Ready.emptySet, 2⟩, ⟨⟨false, true, false, false⟩, 0⟩, 1⟩

/-- A kernel that accepts only 1 byte on the write toward the back. -/
def shortWriteEnv : TickEnv := ⟨0, 0, 1, 0⟩

/-- A connection with 5 bytes queued toward the outgoing half and the
outgoing half WRITABLE. -/
def zeroWriteConn : Connection :=
  ⟨⟨Ready.emptySet, 5⟩, ⟨⟨false, true, false, false⟩, 0⟩, 1⟩

/-- A driver holding exactly one paired connection: incoming slot 1,
outgoing slot 1 mapping back to incoming slot 1. -/
def pairedDriver : Driver :=
  ⟨[], ⟨1, 4096, [(1, Connection.new 1)]⟩, ⟨1, 4096, [(1, some 1)]⟩, ⟨1, 128, []⟩⟩

/-- A driver whose outgoing slab (capacity 1) is full. -/
def fullOutDriver : Driver :=
  ⟨[], ⟨1, 4096, []⟩, ⟨1, 1, [(1, none)]⟩, ⟨1, 128, [(1, lbListener)]⟩⟩

/-- A driver with one listener and room in both connection slabs. -/
def roomyDriver : Driver :=
  ⟨[], ⟨1, 4096, []⟩, ⟨1, 4096, []⟩, ⟨1, 128, [(1, lbListener)]⟩⟩

/-- A driver whose incoming slab has zero capacity while the outgoing
slab has room. -/
def fullInDriver : Driver :=
  ⟨[], ⟨1, 0, []⟩, ⟨1, 4096, []⟩, ⟨1, 128, [(1, lbListener)]⟩⟩

/-- A driver state owning one listener (slot 1) on `addrA`. -/
def oneListenerState : DriverStateM :=
  ⟨⟨1, 4096, []⟩, ⟨1, 4096, []⟩, ⟨1, 128, [(1, lbListener)]⟩⟩

/-- A configuration with no frontends and no backends. -/
def emptyCfg : RootConfig := ⟨[], [], ⟨4096, 128⟩⟩

/-- A hostname that fails to resolve in the demo resolver. -/
def badName : String := "nowhere.invalid:1"

/-- A backend name used in config fixtures. -/
def nameB : String := "out"

/-- A frontend name used in config fixtures. -/
def nameF : String := "in"

/-- A resolver oracle that fails on `badName` and resolves any other
string to itself. -/
def demoResolve : String → Option SockAddr :=
  fun s => if s == badName then none else some s

/-- A configuration whose sole backend has an unresolvable target. -/
def badCfg : RootConfig :=
  ⟨[(nameF, ⟨addrA, nameB⟩)], [(nameB, ⟨[badName]⟩)], ⟨4096, 128⟩⟩

/-- C1. The spec claims a short write parks the unwritten remainder in
the half's queued-bytes slot and a later WRITABLE tick drains it before
any new read. The code instead resets `buffer_index` to 0 after every
pipe (logging `"do not support shorten writeen"`): with 2 bytes queued
toward the outgoing half, the back half WRITABLE and a kernel accepting
1 byte, `tick()` writes 1 byte, empties the queued-bytes slot, and the
next tick with WRITABLE set writes nothing — the remaining byte is
lost. -/
theorem short_write_discards_remainder :
    (shortWriteConn.tick shortWriteEnv).sended = true ∧
    (shortWriteConn.tick shortWriteEnv).wroteToBack = 1 ∧
    (shortWriteConn.tick shortWriteEnv).conn.front.buffer_index = 0 ∧
    ((shortWriteConn.tick shortWriteEnv).conn.tick ⟨0, 0, 4096, 0⟩).wroteToBack = 0 ∧
    ((shortWriteConn.tick shortWriteEnv).conn.tick ⟨0, 0, 4096, 0⟩).sended = false := by
  decide

/-- C3 counterexample. `tick()` returns `true` although zero bytes were
transferred: 5 bytes are queued toward the writable outgoing half, the
kernel accepts 0 bytes (would-block), yet `sended` is `true`. -/
theorem tick_true_without_bytes :
    (zeroWriteConn.tick noEnv).sended = true ∧
    (zeroWriteConn.tick noEnv).wroteToBack = 0 ∧
    (zeroWriteConn.tick noEnv).wroteToFront = 0 := by
  decide

/-- C3 amended. `tick()` returns `true` iff, after the read phase, some
half had queued bytes while the opposite half was WRITABLE — i.e. a
write was attempted — independently of how many bytes the writes
actually moved. -/
theorem tick_sended_iff_write_attempted (c : Connection) (io : TickEnv) :
    (c.tick io).sended =
      (((c.front.absorbStep io.frontRead).buffer_index > 0 && c.back.state.writable) ||
       ((c.back.absorbStep io.backRead).buffer_index > 0 && c.front.state.writable)) := by
  rcases c with ⟨⟨⟨fr, fw, fe, fh⟩, fb⟩, ⟨⟨br, bw, be, bh⟩, bb⟩, tok⟩
  simp only [Connection.tick, EndPoint.absorbStep, Ready.removeBits, Ready.readableOnly]
  split_ifs <;> simp_all

/-- C5. Token codec round trip: for every variant and every slot below
`2^62` (the word width minus the two tag bits), decoding the encoded
raw token returns the same token. -/
theorem token_roundtrip (t : TokenType) (h : t.slot < 2 ^ 62) :
    TokenType.from_raw_token t.as_raw_token = some t := by
  have h4 : t.slot * 4 < usizeSize := by
    have he : (2 : Nat) ^ 62 * 4 = usizeSize := by norm_num [usizeSize]
    omega
  cases t with
  | listener s =>
    simp only [TokenType.slot] at h4
    simp only [TokenType.as_raw_token, ListenerToken.as_raw_token,
      Nat.mod_eq_of_lt h4]
    have h1 : s * 4 % 4 = 0 := by omega
    have h2 : s * 4 / 4 = s := by omega
    simp [TokenType.from_raw_token, h1, h2]
  | incoming s =>
    simp only [TokenType.slot] at h4
    simp only [TokenType.as_raw_token, IncomingToken.as_raw_token,
      Nat.mod_eq_of_lt h4]
    have h1 : (s * 4 + 1) % 4 = 1 := by omega
    have h2 : (s * 4 + 1) / 4 = s := by omega
    simp [TokenType.from_raw_token, h1, h2]
  | outgoing s =>
    simp only [TokenType.slot] at h4
    simp only [TokenType.as_raw_token, OutgoingToken.as_raw_token,
      Nat.mod_eq_of_lt h4]
    have h1 : (s * 4 + 2) % 4 = 2 := by omega
    have h2 : (s * 4 + 2) / 4 = s := by omega
    simp [TokenType.from_raw_token, h1, h2]

/-- C5 witness: the round trip at variant `Incoming`, slot 5. -/
theorem token_roundtrip_witness :
    TokenType.slot (.incoming 5) < 2 ^ 62 ∧
    TokenType.from_raw_token (TokenType.as_raw_token (.incoming 5)) =
      some (.incoming 5) :=
  ⟨by decide, token_roundtrip (.incoming 5) (by decide)⟩

/-- C10. Closedness of a half is monotone: once ERROR or HUP is present
in a half's readiness, `incoming_ready`, `outgoing_ready` and `tick`
(which only ever removes READABLE) all preserve it, so the
`is_*_closed` predicates never fall back from `true` to `false`. -/
theorem closedness_monotone (c : Connection) (e : Ready) (io : TickEnv) :
    (c.is_incoming_closed = true →
      (c.incoming_ready e).is_incoming_closed = true ∧
      (c.outgoing_ready e).is_incoming_closed = true ∧
      (c.tick io).conn.is_incoming_closed = true) ∧
    (c.is_outgoing_closed = true →
      (c.incoming_ready e).is_outgoing_closed = true ∧
      (c.outgoing_ready e).is_outgoing_closed = true ∧
      (c.tick io).conn.is_outgoing_closed = true) := by
  rcases c with ⟨⟨⟨fr, fw, fe, fh⟩, fb⟩, ⟨⟨br, bw, be, bh⟩, bb⟩, tok⟩
  rcases e with ⟨er, ew, ee, eh⟩
  refine ⟨fun h => ⟨?_, ?_, ?_⟩, fun h => ⟨?_, ?_, ?_⟩⟩ <;>
    simp_all [Connection.is_incoming_closed, Connection.is_outgoing_closed,
      Connection.incoming_ready, Connection.outgoing_ready, Connection.tick,
      EndPoint.absorbStep, Ready.insertBits, Ready.removeBits, Ready.readableOnly] <;>
    first
      | tauto
      | (split_ifs <;> simp_all)

/-- C10 witness: a connection whose front half carries HUP and whose
back half carries ERROR stays closed on both sides under all three
operations. -/
theorem closedness_monotone_witness :
    let c : Connection := ⟨⟨⟨false, false, false, true⟩, 0⟩, ⟨⟨true, false, true, false⟩, 7⟩, 2⟩
    (c.incoming_ready Ready.readableOnly).is_incoming_closed = true ∧
    (c.outgoing_ready Ready.readableOnly).is_incoming_closed = true ∧
    (c.tick noEnv).conn.is_incoming_closed = true ∧
    (c.incoming_ready Ready.readableOnly).is_outgoing_closed = true ∧
    (c.outgoing_ready Ready.readableOnly).is_outgoing_closed = true ∧
    (c.tick noEnv).conn.is_outgoing_closed = true := by
  intro c
  have h1 := (closedness_monotone c Ready.readableOnly noEnv).1 (by decide)
  have h2 := (closedness_monotone c Ready.readableOnly noEnv).2 (by decide)
  exact ⟨h1.1, h1.2.1, h1.2.2, h2.1, h2.2.1, h2.2.2⟩

/-- C2 counterexample. An outgoing-token event on a pair with HUP on
the outgoing half and nothing to transfer: `tick()` makes no progress
and the outgoing half is closed, yet after the handler both slabs still
hold their slots (the incoming connection stays, the outgoing slot is
merely overwritten with `None`). -/
theorem outgoing_close_leaves_slots_occupied :
    (((Connection.new 1).outgoing_ready Ready.hupOnly).tick noEnv).sended = false ∧
    (((Connection.new 1).outgoing_ready Ready.hupOnly).tick noEnv).conn.is_outgoing_closed = true ∧
    (pairedDriver.outgoing_ready 1 Ready.hupOnly noEnv).incoming_connections.containsSlot 1 = true ∧
    (pairedDriver.outgoing_ready 1 Ready.hupOnly noEnv).outgoing_connections_token.containsSlot 1 = true ∧
    (pairedDriver.outgoing_ready 1 Ready.hupOnly noEnv).outgoing_connections_token.get 1 = some none := by
  decide

/-- C8 counterexample. With the outgoing slab at capacity, the accept
path does not log-and-drop: it hits the `.expect("Outgoing buffer
full")` panic. -/
theorem accept_panics_on_full_slab :
    (fullOutDriver.listener_ready 1 Ready.readableOnly true true).outcome =
      .panickedOutgoingFull := by
  decide

/-- C9 counterexample. After accepting a connection the listener is
re-armed with interest READABLE|WRITABLE (the re-register op's WRITABLE
bit is set), not with interest exactly READABLE as claimed. -/
theorem listener_rearm_includes_writable :
    (roomyDriver.listener_ready 1 Ready.readableOnly true true).outcome = .accepted ∧
    (roomyDriver.listener_ready 1 Ready.readableOnly true true).ops.getLast? =
      some ⟨.reregister, ListenerToken.as_raw_token 1, true, true, true, true⟩ := by
  constructor
  · rfl
  · rfl

/-- C4. Round-robin router (spec-modelled, see `Backend`): each
`next_target()` call returns `targets[cursor]` and advances the cursor
to `(cursor + 1) mod len(targets)`; consequently `3k` consecutive calls
on a fresh router over `[A, B, C]` produce the sequence
`A,B,C,A,B,C,…` — `k` copies of `[A, B, C]` concatenated. -/
theorem round_robin_fairness (b : Backend) (h : b.cursor < b.targets.length)
    (A B C : SockAddr) (k : Nat) :
    (b.next_target.1 = b.targets.get ⟨b.cursor, h⟩ ∧
     b.next_target.2.cursor = (b.cursor + 1) % b.targets.length) ∧
    Backend.run (Backend.new [A, B, C]) (3 * k) =
      (List.replicate k [A, B, C]).join := by
  refine ⟨⟨?_, rfl⟩, ?_⟩
  · simp [Backend.next_target, List.getD_eq_getElem?_getD, List.getElem?_eq_getElem h,
      List.get_eq_getElem]
  · induction k with
    | zero => rfl
    | succ n ih =>
      have h3 : 3 * (n + 1) = 3 * n + 1 + 1 + 1 := by ring
      rw [h3]
      simp only [Backend.run, Backend.next_target, Backend.new, List.replicate_succ,
        List.join_cons]
      simp only [List.length_cons, List.length_nil] at *
      norm_num
      exact ih

/-- C4 witness: the per-call contract at a two-target router and the
3k-call fairness sequence at k = 2. -/
theorem round_robin_fairness_witness :
    (Backend.new [addrA, addrT]).cursor < (Backend.new [addrA, addrT]).targets.length ∧
    Backend.run (Backend.new [addrA, addrT, addrA]) (3 * 2) =
      (List.replicate 2 [addrA, addrT, addrA]).join :=
  ⟨by decide, (round_robin_fairness (Backend.new [addrA, addrT]) (by decide) addrA addrT addrA 2).2⟩


/-- A slot is occupied iff some value is stored under it. -/
theorem slab_containsSlot_iff {α : Type} (s : Slab α) (t : Nat) :
    s.containsSlot t = true ↔ ∃ v, (t, v) ∈ s.entries := by
  unfold Slab.containsSlot
  rw [List.find?_isSome]
  constructor
  · rintro ⟨⟨k, v⟩, hm, hk⟩
    simp only [beq_iff_eq] at hk
    subst hk
    exact ⟨v, hm⟩
  · rintro ⟨v, hm⟩
    exact ⟨(t, v), hm, by simp⟩

/-- A successful `get` means the slot is occupied. -/
theorem slab_containsSlot_of_get {α : Type} (s : Slab α) (t : Nat) (v : α)
    (h : s.get t = some v) : s.containsSlot t = true := by
  unfold Slab.get at h
  unfold Slab.containsSlot
  cases hf : s.entries.find? (fun p => p.1 == t) with
  | none => simp [hf] at h
  | some p => simp [hf]

/-- An occupied slot yields some value on `get`. -/
theorem slab_get_of_containsSlot {α : Type} (s : Slab α) (t : Nat)
    (h : s.containsSlot t = true) : ∃ v, s.get t = some v := by
  unfold Slab.containsSlot at h
  unfold Slab.get
  cases hf : s.entries.find? (fun p => p.1 == t) with
  | none => simp [hf] at h
  | some p => exact ⟨p.2, rfl⟩

/-- Find-by-key is unaffected in presence by a set-entry map. -/
theorem find?_isSome_map_set {α : Type} (t u : Nat) (v : α) :
    ∀ l : List (Nat × α),
      (List.find? (fun p => p.1 == u)
        (l.map (fun p => if p.1 == t then (t, v) else p))).isSome
        = (List.find? (fun p => p.1 == u) l).isSome := by
  intro l
  have hkey : ∀ p : Nat × α, ((if p.1 == t then (t, v) else p) : Nat × α).1 = p.1 := by
    intro p
    by_cases hp : p.1 = t
    · subst hp; simp
    · simp [hp]
  rw [Bool.eq_iff_iff, List.find?_isSome, List.find?_isSome]
  constructor
  · rintro ⟨x, hx, hpx⟩
    obtain ⟨y, hy, rfl⟩ := List.mem_map.mp hx
    refine ⟨y, hy, ?_⟩
    rwa [hkey y] at hpx
  · rintro ⟨y, hy, hyu⟩
    refine ⟨_, List.mem_map_of_mem _ hy, ?_⟩
    rwa [hkey y]

/-- `setSlot` does not change which slots are occupied. -/
theorem slab_containsSlot_setSlot {α : Type} (s : Slab α) (t u : Nat) (v : α) :
    (s.setSlot t v).containsSlot u = s.containsSlot u := by
  simp only [Slab.containsSlot, Slab.setSlot]
  exact find?_isSome_map_set t u v s.entries

/-- Reading back an occupied slot after `setSlot` returns the new value. -/
theorem slab_get_setSlot_self {α : Type} (s : Slab α) (t : Nat) (v : α)
    (h : s.containsSlot t = true) : (s.setSlot t v).get t = some v := by
  obtain ⟨st, cap, l⟩ := s
  simp only [Slab.containsSlot, Slab.setSlot, Slab.get] at *
  induction l with
  | nil => simp at h
  | cons p rest ih =>
    by_cases hp : p.1 = t
    · subst hp
      simp
    · have hp' : (p.1 == t) = false := by simpa using hp
      simp only [List.find?_cons, hp'] at h
      simp only [List.map_cons, hp', Bool.false_eq_true, if_neg, not_false_iff,
        List.find?_cons]
      exact ih h

/-- `removeSlot` succeeds exactly on occupied slots. -/
theorem slab_removeSlot_of_containsSlot {α : Type} (s : Slab α) (t : Nat)
    (h : s.containsSlot t = true) :
    ∃ v s', s.removeSlot t = some (v, s') := by
  obtain ⟨v, hv⟩ := slab_get_of_containsSlot s t h
  refine ⟨v, ⟨s.start, s.capacity, s.entries.filter (fun p => p.1 != t)⟩, ?_⟩
  simp [Slab.removeSlot, hv]

/-- After `removeSlot`, the removed slot is free. -/
theorem slab_removeSlot_self {α : Type} (s : Slab α) (t : Nat) (v : α)
    (s' : Slab α) (h : s.removeSlot t = some (v, s')) :
    s'.containsSlot t = false := by
  unfold Slab.removeSlot at h
  cases hg : s.get t with
  | none => rw [hg] at h; simp at h
  | some w =>
    rw [hg] at h
    simp only [Option.some.injEq, Prod.mk.injEq] at h
    obtain ⟨-, h2⟩ := h
    subst h2
    have hnone : List.find? (fun p => p.1 == t)
        (List.filter (fun p => p.1 != t) s.entries) = none := by
      rw [List.find?_eq_none]
      intro p hp
      have := List.of_mem_filter hp
      simpa using this
    simp [Slab.containsSlot, hnone]

/-- `removeSlot` never occupies a free slot. -/
theorem slab_removeSlot_mono {α : Type} (s : Slab α) (t u : Nat) (v : α)
    (s' : Slab α) (h : s.removeSlot t = some (v, s'))
    (hu : s.containsSlot u = false) : s'.containsSlot u = false := by
  unfold Slab.removeSlot at h
  cases hg : s.get t with
  | none => rw [hg] at h; simp at h
  | some w =>
    rw [hg] at h
    simp only [Option.some.injEq, Prod.mk.injEq] at h
    obtain ⟨-, h2⟩ := h
    subst h2
    simp only [Slab.containsSlot] at hu ⊢
    have hu' : List.find? (fun p => p.1 == u) s.entries = none := by
      cases hf : List.find? (fun p => p.1 == u) s.entries with
      | none => rfl
      | some p => rw [hf] at hu; simp at hu
    have hnone : List.find? (fun p => p.1 == u)
        (List.filter (fun p => p.1 != t) s.entries) = none := by
      rw [List.find?_eq_none] at hu' ⊢
      intro p hp
      exact hu' p (List.mem_of_mem_filter hp)
    simp [hnone]

/-- A fresh insertion occupies the returned slot. -/
theorem slab_insertVal_containsSlot {α : Type} (s : Slab α) (v : α)
    (i : Nat) (s' : Slab α) (h : s.insertVal v = some (i, s')) :
    s'.containsSlot i = true := by
  cases hf : s.freeIndex with
  | none => simp [Slab.insertVal, hf] at h
  | some j =>
    simp only [Slab.insertVal, hf, Option.map_some', Option.some.injEq,
      Prod.mk.injEq] at h
    obtain ⟨h1, h2⟩ := h
    subst h1
    subst h2
    rw [slab_containsSlot_iff]
    exact ⟨v, by simp⟩

/-- Insertion keeps previously occupied slots occupied. -/
theorem slab_insertVal_mono {α : Type} (s : Slab α) (v : α)
    (i u : Nat) (s' : Slab α) (h : s.insertVal v = some (i, s'))
    (hu : s.containsSlot u = true) : s'.containsSlot u = true := by
  cases hf : s.freeIndex with
  | none => simp [Slab.insertVal, hf] at h
  | some j =>
    simp only [Slab.insertVal, hf, Option.map_some', Option.some.injEq,
      Prod.mk.injEq] at h
    obtain ⟨h1, h2⟩ := h
    subst h1
    subst h2
    rw [slab_containsSlot_iff] at hu ⊢
    obtain ⟨w, hw⟩ := hu
    exact ⟨w, by simp [hw]⟩

/-- `insert_with` keeps previously occupied slots occupied. -/
theorem slab_insert_with_mono {α : Type} (s : Slab α) (f : Nat → α)
    (i u : Nat) (s' : Slab α) (h : s.insert_with f = some (i, s'))
    (hu : s.containsSlot u = true) : s'.containsSlot u = true := by
  cases hf : s.freeIndex with
  | none => simp [Slab.insert_with, hf] at h
  | some j =>
    simp only [Slab.insert_with, hf, Option.map_some', Option.some.injEq,
      Prod.mk.injEq] at h
    obtain ⟨h1, h2⟩ := h
    subst h1
    subst h2
    rw [slab_containsSlot_iff] at hu ⊢
    obtain ⟨w, hw⟩ := hu
    exact ⟨w, by simp [hw]⟩

/-- `tick` never changes the stored outgoing token. -/
theorem tick_backend_token (c : Connection) (io : TickEnv) :
    (c.tick io).conn.backend_token = c.backend_token := rfl

/-- The ready-merge operations never change the stored outgoing token. -/
theorem ready_backend_token (c : Connection) (e : Ready) :
    (c.incoming_ready e).backend_token = c.backend_token ∧
    (c.outgoing_ready e).backend_token = c.backend_token :=
  ⟨rfl, rfl⟩

/-- `Driver::remove_connection` frees both the incoming slot and the
outgoing slot recorded in the removed connection. -/
theorem driver_remove_connection_spec (d : Driver) (t : Nat) (c : Connection)
    (h1 : d.incoming_connections.get t = some c)
    (h2 : d.outgoing_connections_token.containsSlot c.backend_token = true) :
    ∃ d', d.remove_connection t = some d' ∧
      d'.incoming_connections.containsSlot t = false ∧
      d'.outgoing_connections_token.containsSlot c.backend_token = false := by
  unfold Driver.remove_connection
  have hrm1 : d.incoming_connections.removeSlot t =
      some (c, ⟨d.incoming_connections.start, d.incoming_connections.capacity,
        d.incoming_connections.entries.filter (fun p => p.1 != t)⟩) := by
    simp [Slab.removeSlot, h1]
  obtain ⟨v2, s2, hrm2⟩ := slab_removeSlot_of_containsSlot _ _ h2
  simp only [hrm1, Connection.outgoing_token, hrm2]
  refine ⟨_, rfl, ?_, ?_⟩
  · exact slab_removeSlot_self _ _ _ _ hrm1
  · exact slab_removeSlot_self _ _ _ _ hrm2

/-- C2 amended. On an *incoming*-token event with no progress and
either half closed, the dispatcher removes the pair and both slab
slots become free. On an *outgoing*-token event removal triggers only
when the *outgoing* half is closed, and it merely overwrites the
outgoing slot's mapping with `None`: the incoming slot stays occupied
and the outgoing slot stays occupied (holding `None`). -/
theorem close_removal_paths (d : Driver) (ti tou : Nat) (ready : Ready)
    (io : TickEnv) (cin : Connection) :
    ((d.incoming_connections.get ti = some cin) →
      (((cin.incoming_ready ready).tick io).sended = false) →
      ((((cin.incoming_ready ready).tick io).conn.is_incoming_closed = true) ∨
       (((cin.incoming_ready ready).tick io).conn.is_outgoing_closed = true)) →
      (d.outgoing_connections_token.containsSlot cin.backend_token = true) →
      ∃ d', d.incoming_ready ti ready io = some d' ∧
        d'.incoming_connections.containsSlot ti = false ∧
        d'.outgoing_connections_token.containsSlot cin.backend_token = false) ∧
    ((d.outgoing_connections_token.get tou = some (some ti)) →
      (d.incoming_connections.get ti = some cin) →
      (((cin.outgoing_ready ready).tick io).sended = false) →
      (((cin.outgoing_ready ready).tick io).conn.is_outgoing_closed = true) →
      (d.outgoing_ready tou ready io).incoming_connections.containsSlot ti = true ∧
      (d.outgoing_ready tou ready io).outgoing_connections_token.get tou = some none) := by
  constructor
  · intro hget hns hcl hout
    have hb : ((cin.incoming_ready ready).tick io).conn.backend_token
        = cin.backend_token := tick_backend_token _ _
    unfold Driver.incoming_ready
    rcases hcl with h | h <;>
      simp only [hget, hns, h, Bool.not_false, Bool.true_and, Bool.true_or,
        Bool.or_true, Bool.not_true, Bool.false_and, if_false, if_true,
        Bool.false_eq_true, ite_false, ite_true]
    all_goals {
      have hc1 : (d.incoming_connections.setSlot ti
          ((cin.incoming_ready ready).tick io).conn).get ti =
          some ((cin.incoming_ready ready).tick io).conn :=
        slab_get_setSlot_self _ _ _ (slab_containsSlot_of_get _ _ _ hget)
      obtain ⟨d', hd', hcA, hcB⟩ := driver_remove_connection_spec
        ⟨d.to_reregister,
         d.incoming_connections.setSlot ti ((cin.incoming_ready ready).tick io).conn,
         d.outgoing_connections_token, d.listeners⟩ ti
        ((cin.incoming_ready ready).tick io).conn hc1 (by rw [hb]; exact hout)
      refine ⟨d', ?_, hcA, by rwa [hb] at hcB⟩
      exact hd'
    }
  · intro hg1 hg2 hns hcl
    unfold Driver.outgoing_ready
    simp only [hg1, hg2, hns, hcl, Bool.not_false, Bool.true_and, Bool.not_true,
      Bool.false_and, if_true, if_false, Bool.false_eq_true, ite_false, ite_true]
    constructor
    · rw [slab_containsSlot_setSlot]
      exact slab_containsSlot_of_get _ _ _ hg2
    · exact slab_get_setSlot_self _ _ _ (slab_containsSlot_of_get _ _ _ hg1)

/-- C2 witness: both paths of `close_removal_paths` at the one-pair
driver, with a HUP event and an idle kernel. -/
theorem close_removal_paths_witness :
    (∃ d', pairedDriver.incoming_ready 1 Ready.hupOnly noEnv = some d' ∧
      d'.incoming_connections.containsSlot 1 = false ∧
      d'.outgoing_connections_token.containsSlot (Connection.new 1).backend_token = false) ∧
    ((pairedDriver.outgoing_ready 1 Ready.hupOnly noEnv).incoming_connections.containsSlot 1 = true ∧
     (pairedDriver.outgoing_ready 1 Ready.hupOnly noEnv).outgoing_connections_token.get 1 = some none) :=
  ⟨(close_removal_paths pairedDriver 1 1 Ready.hupOnly noEnv (Connection.new 1)).1
      (by decide) (by decide) (Or.inl (by decide)) (by decide),
   (close_removal_paths pairedDriver 1 1 Ready.hupOnly noEnv (Connection.new 1)).2
      (by decide) (by decide) (by decide) (by decide)⟩

/-- C8 amended. When the outgoing slab is full the accept path panics
with `"Outgoing buffer full"`; when the outgoing insertion succeeds but
the incoming slab is full it panics with `"Incoming buffer full"` and
the freshly allocated outgoing slot is left occupied — no rollback. -/
theorem slab_full_panics_no_rollback (d : Driver) (token : Nat) (event : Ready)
    (l : ListenerM) (he : event.readable = true)
    (hl : d.listeners.get token = some l) :
    (d.outgoing_connections_token.freeIndex = none →
      (d.listener_ready token event true true).outcome = .panickedOutgoingFull) ∧
    (∀ i s', d.outgoing_connections_token.insertVal none = some (i, s') →
      d.incoming_connections.freeIndex = none →
      (d.listener_ready token event true true).outcome = .panickedIncomingFull ∧
      (d.listener_ready token event true true).driver.outgoing_connections_token.containsSlot i
        = true) := by
  constructor
  · intro hfree
    have hiv : d.outgoing_connections_token.insertVal (none : Option Nat) = none := by
      simp [Slab.insertVal, hfree]
    unfold Driver.listener_ready
    simp only [he, hl, Bool.not_true, Bool.false_eq_true, if_false, ite_false,
      ite_true, hiv]
  · intro i s' hins hfree
    have hiv2 : d.incoming_connections.insertVal (Connection.new i) = none := by
      simp [Slab.insertVal, hfree]
    unfold Driver.listener_ready
    simp only [he, hl, Bool.not_true, Bool.false_eq_true, if_false, ite_false,
      ite_true, hins, hiv2]
    exact ⟨by trivial, slab_insertVal_containsSlot _ _ _ _ hins⟩

/-- C8 witness: the outgoing-full panic at a capacity-1 outgoing slab,
and the incoming-full panic without rollback at a capacity-0 incoming
slab. -/
theorem slab_full_panics_no_rollback_witness :
    ((fullOutDriver.listener_ready 1 Ready.readableOnly true true).outcome =
      .panickedOutgoingFull) ∧
    ((fullInDriver.listener_ready 1 Ready.readableOnly true true).outcome =
      .panickedIncomingFull ∧
     (fullInDriver.listener_ready 1 Ready.readableOnly true true).driver.outgoing_connections_token.containsSlot 1
       = true) :=
  ⟨(slab_full_panics_no_rollback fullOutDriver 1 Ready.readableOnly lbListener
      (by decide) (by decide)).1 (by decide),
   (slab_full_panics_no_rollback fullInDriver 1 Ready.readableOnly lbListener
      (by decide) (by decide)).2 1 ⟨1, 4096, [(1, none)]⟩ (by decide) (by decide)⟩

/-- C9 amended. Whenever `listener_ready` runs to completion, the final
poller call re-arms the listener with interest READABLE|WRITABLE,
edge-triggered and one-shot. -/
theorem listener_rearm_rw_oneshot (d : Driver) (token : Nat) (event : Ready)
    (hacc : (d.listener_ready token event true true).outcome = .accepted) :
    (d.listener_ready token event true true).ops.getLast? =
      some ⟨.reregister, ListenerToken.as_raw_token token, true, true, true, true⟩ := by
  unfold Driver.listener_ready at hacc ⊢
  by_cases he : event.readable = true
  · simp only [he, Bool.not_true, Bool.false_eq_true, if_false, ite_false,
      ite_true] at hacc ⊢
    cases hl : d.listeners.get token with
    | none => simp [hl] at hacc
    | some l =>
      simp only [hl] at hacc ⊢
      cases hins : d.outgoing_connections_token.insertVal (none : Option Nat) with
      | none => simp [hins] at hacc
      | some p =>
        obtain ⟨o, s1⟩ := p
        simp only [hins] at hacc ⊢
        cases hins2 : d.incoming_connections.insertVal (Connection.new o) with
        | none => simp [hins2] at hacc
        | some q =>
          obtain ⟨i, s2⟩ := q
          simp only [hins2] at hacc ⊢
          rfl
  · have he' : event.readable = false := by
      simpa using he
    simp [he'] at hacc

/-- C9 witness: the re-arm op of a completed accept at the one-listener
driver. -/
theorem listener_rearm_rw_oneshot_witness :
    (roomyDriver.listener_ready 1 Ready.readableOnly true true).ops.getLast? =
      some ⟨.reregister, ListenerToken.as_raw_token 1, true, true, true, true⟩ :=
  listener_rearm_rw_oneshot roomyDriver 1 Ready.readableOnly (by decide)

/-- A `filterMap` that drops some element is strictly shorter. -/
theorem filterMap_length_ne {α β : Type} (f : α → Option β) :
    ∀ (l : List α) (a : α), a ∈ l → f a = none →
      (l.filterMap f).length ≠ l.length := by
  intro l
  induction l with
  | nil => intro a ha; simp at ha
  | cons b t ih =>
    intro a ha hf
    rcases List.mem_cons.mp ha with rfl | hat
    · rw [List.filterMap_cons_none hf]
      have hle := List.length_filterMap_le f t
      simp only [List.length_cons]
      omega
    · cases hfb : f b with
      | none =>
        rw [List.filterMap_cons_none hfb]
        have hle := List.length_filterMap_le f t
        simp only [List.length_cons]
        omega
      | some v =>
        rw [List.filterMap_cons_some hfb]
        simp only [List.length_cons]
        intro hcontra
        exact ih a hat hf (by omega)

/-- `make_backend` fails (with `NotFound`) when any target does not
resolve. -/
theorem make_backend_err (resolve : String → Option SockAddr) (c : BackendConfig)
    (hs : ∃ s ∈ c.target_addrs, resolve s = none) :
    make_backend resolve c = .error .targetsNotFound := by
  obtain ⟨s, hs1, hs2⟩ := hs
  unfold make_backend
  have hne := filterMap_length_ne resolve c.target_addrs s hs1 hs2
  simp [hne]

/-- `make_backend` only ever fails with `NotFound`. -/
theorem make_backend_err_eq (resolve : String → Option SockAddr) (c : BackendConfig)
    (e : RErr) (h : make_backend resolve c = .error e) : e = .targetsNotFound := by
  simp only [make_backend] at h
  split at h
  · simp only [Except.error.injEq] at h
    exact h.symm
  · exact Except.noConfusion h

/-- The backend-building loop only ever fails with `NotFound`. -/
theorem makeBackends_err_eq (resolve : String → Option SockAddr) :
    ∀ (l : List (String × BackendConfig)) (e : RErr),
      makeBackends resolve l = .error e → e = .targetsNotFound := by
  intro l
  induction l with
  | nil => intro e h; simp [makeBackends] at h
  | cons p t ih =>
    intro e h
    obtain ⟨n, c⟩ := p
    cases hmb : make_backend resolve c with
    | error e1 =>
      simp only [makeBackends, hmb, Except.error.injEq] at h
      subst h
      exact make_backend_err_eq resolve c e1 hmb
    | ok b =>
      cases hmt : makeBackends resolve t with
      | error e1 =>
        simp only [makeBackends, hmb, hmt, Except.error.injEq] at h
        subst h
        exact ih e1 hmt
      | ok bs =>
        simp [makeBackends, hmb, hmt] at h

/-- If some backend target fails to resolve, the backend-building loop
fails with `NotFound`. -/
theorem makeBackends_fail (resolve : String → Option SockAddr) :
    ∀ (l : List (String × BackendConfig)),
      (∃ p ∈ l, ∃ s ∈ p.2.target_addrs, resolve s = none) →
      makeBackends resolve l = .error .targetsNotFound := by
  intro l
  induction l with
  | nil => rintro ⟨p, hp, -⟩; simp at hp
  | cons q t ih =>
    rintro ⟨p, hp, hs⟩
    obtain ⟨n, c⟩ := q
    rcases List.mem_cons.mp hp with rfl | hpt
    · have := make_backend_err resolve c hs
      simp [makeBackends, this]
    · cases hmb : make_backend resolve c with
      | error e' =>
        have := make_backend_err_eq resolve c e' hmb
        subst this
        simp [makeBackends, hmb]
      | ok b =>
        have := ih ⟨p, hpt, hs⟩
        simp [makeBackends, hmb, this]

/-- If the backend-building loop succeeds, every target of every listed
backend resolved. -/
theorem makeBackends_ok_resolves (resolve : String → Option SockAddr) :
    ∀ (l : List (String × BackendConfig)) (bs : List (String × Backend)),
      makeBackends resolve l = .ok bs →
      ∀ p ∈ l, ∀ s ∈ p.2.target_addrs, (resolve s).isSome = true := by
  intro l
  induction l with
  | nil => intro bs h p hp; simp at hp
  | cons q t ih =>
    intro bs h p hp s hs
    obtain ⟨n, c⟩ := q
    cases hmb : make_backend resolve c with
    | error e1 => simp [makeBackends, hmb] at h
    | ok b =>
      cases hmt : makeBackends resolve t with
      | error e1 => simp [makeBackends, hmb, hmt] at h
      | ok bs1 =>
        rcases List.mem_cons.mp hp with rfl | hpt
        · by_contra hnone
          rw [Option.not_isSome_iff_eq_none] at hnone
          have := make_backend_err resolve c ⟨s, hs, hnone⟩
          rw [this] at hmb
          exact Except.noConfusion hmb
        · exact ih bs1 hmt p hpt s hs

/-- The backend-building loop preserves the names, in order. -/
theorem makeBackends_ok_keys (resolve : String → Option SockAddr) :
    ∀ (l : List (String × BackendConfig)) (bs : List (String × Backend)),
      makeBackends resolve l = .ok bs →
      bs.map Prod.fst = l.map Prod.fst := by
  intro l
  induction l with
  | nil =>
    intro bs h
    simp only [makeBackends, Except.ok.injEq] at h
    subst h
    rfl
  | cons q t ih =>
    intro bs h
    obtain ⟨n, c⟩ := q
    cases hmb : make_backend resolve c with
    | error e1 => simp [makeBackends, hmb] at h
    | ok b =>
      cases hmt : makeBackends resolve t with
      | error e1 => simp [makeBackends, hmb, hmt] at h
      | ok bs1 =>
        simp only [makeBackends, hmb, hmt, Except.ok.injEq] at h
        subst h
        simp [ih bs1 hmt]

/-- A key that occurs among the stored names is found by `find?`. -/
theorem find?_key_isSome {β : Type} (bs : List (String × β)) (name : String)
    (h : name ∈ bs.map Prod.fst) :
    (bs.find? (fun q => q.1 == name)).isSome = true := by
  rw [List.find?_isSome]
  obtain ⟨p, hp, hpn⟩ := List.mem_map.mp h
  exact ⟨p, hp, by simp [hpn]⟩

/-- If every named backend exists and some frontend's listen address
fails to resolve, the frontend-building loop fails with the resolution
error. -/
theorem makeFrontends_fail (resolve : String → Option SockAddr)
    (bs : List (String × Backend)) :
    ∀ (l : List (String × FrontendConfig)),
      (∀ p ∈ l, (bs.find? (fun q => q.1 == p.2.backend)).isSome = true) →
      (∃ p ∈ l, resolve p.2.listen_addr = none) →
      ∃ s, makeFrontends resolve bs l = .error (.resolveFail s) := by
  intro l
  induction l with
  | nil => rintro - ⟨p, hp, -⟩; simp at hp
  | cons q t ih =>
    rintro hall ⟨p, hp, hpr⟩
    obtain ⟨n, c⟩ := q
    cases hr : resolve c.listen_addr with
    | none =>
      refine ⟨c.listen_addr, ?_⟩
      simp [makeFrontends, make_frontend, hr]
    | some a =>
      have hfind := hall (n, c) (List.mem_cons_self _ _)
      obtain ⟨pb, hpb⟩ := Option.isSome_iff_exists.mp hfind
      have hmf : make_frontend resolve bs c = .ok ⟨a, [pb.2]⟩ := by
        simp [make_frontend, hr, hpb]
      rcases List.mem_cons.mp hp with rfl | hpt
      · rw [hr] at hpr
        exact Option.noConfusion hpr
      · obtain ⟨s, hs⟩ := ih (fun p hp => hall p (List.mem_cons_of_mem _ hp)) ⟨p, hpt, hpr⟩
        refine ⟨s, ?_⟩
        simp [makeFrontends, hmf, hs]

/-- C6. Atomicity of `reconfigure` on resolution failure: for every
driver state and every well-formed configuration in which some backend
target or some frontend listen address fails to resolve, `reconfigure`
returns the resolution error, the state is exactly the state before the
call, and no poller registration or deregistration was issued. -/
theorem reconfigure_atomic_on_resolution_failure
    (resolve : String → Option SockAddr) (bindOk : SockAddr → Bool)
    (st : DriverStateM) (config : RootConfig)
    (hwf : ∀ p ∈ config.frontends, p.2.backend ∈ config.backends.map Prod.fst)
    (hfail : (∃ p ∈ config.backends, ∃ s ∈ p.2.target_addrs, resolve s = none) ∨
             (∃ p ∈ config.frontends, resolve p.2.listen_addr = none)) :
    ∃ e, e.isResolutionErr = true ∧
      st.reconfigure resolve bindOk config = ⟨.error e, st, []⟩ := by
  rcases hfail with hb | hf
  · have hmb := makeBackends_fail resolve config.backends hb
    exact ⟨.targetsNotFound, rfl, by simp [DriverStateM.reconfigure, hmb]⟩
  · cases hmb : makeBackends resolve config.backends with
    | error e =>
      have he := makeBackends_err_eq resolve config.backends e hmb
      subst he
      exact ⟨.targetsNotFound, rfl, by simp [DriverStateM.reconfigure, hmb]⟩
    | ok bs =>
      have hkeys := makeBackends_ok_keys resolve config.backends bs hmb
      have hall : ∀ p ∈ config.frontends,
          (bs.find? (fun q => q.1 == p.2.backend)).isSome = true := by
        intro p hp
        apply find?_key_isSome
        rw [hkeys]
        exact hwf p hp
      obtain ⟨s, hs⟩ := makeFrontends_fail resolve bs config.frontends hall hf
      exact ⟨.resolveFail s, rfl, by simp [DriverStateM.reconfigure, hmb, hs]⟩

/-- C6 witness: a config whose backend target fails to resolve leaves
the one-listener state untouched and yields the resolution error. -/
theorem reconfigure_atomic_witness :
    ∃ e, RErr.isResolutionErr e = true ∧
      DriverStateM.reconfigure demoResolve (fun _ => true) oneListenerState badCfg =
        ⟨.error e, oneListenerState, []⟩ :=
  reconfigure_atomic_on_resolution_failure demoResolve (fun _ => true)
    oneListenerState badCfg (by decide) (Or.inl (by decide))

/-- C7 counterexample. Reconfiguring the one-listener state with a
configuration that no longer contains its address removes the listener
from the slab and issues the poller deregistration *within* the
`reconfigure` call itself — there is no pending-removal marking and
nothing is deferred to a dispatcher tick. -/
theorem reconfigure_deregisters_immediately :
    (oneListenerState.reconfigure demoResolve (fun _ => true) emptyCfg).res = .ok () ∧
    (oneListenerState.reconfigure demoResolve (fun _ => true) emptyCfg).state.listeners.containsSlot 1 = false ∧
    (oneListenerState.reconfigure demoResolve (fun _ => true) emptyCfg).ops =
      [⟨.deregister, ListenerToken.as_raw_token 1, false, false, false, false⟩] :=
  ⟨rfl, rfl, rfl⟩

/-- Every frontend built by the loop carries a listen address obtained
by resolving some configured frontend's listen address. -/
theorem makeFrontends_addrs (resolve : String → Option SockAddr)
    (bs : List (String × Backend)) :
    ∀ (l : List (String × FrontendConfig)) (fs : List (String × FrontendM)),
      makeFrontends resolve bs l = .ok fs →
      ∀ q ∈ fs, ∃ p ∈ l, resolve p.2.listen_addr = some q.2.listen_addr := by
  intro l
  induction l with
  | nil =>
    intro fs h q hq
    simp only [makeFrontends, Except.ok.injEq] at h
    subst h
    simp at hq
  | cons r t ih =>
    intro fs h q hq
    obtain ⟨n, c⟩ := r
    cases hmf : make_frontend resolve bs c with
    | error e => simp [makeFrontends, hmf] at h
    | ok f =>
      cases hmt : makeFrontends resolve bs t with
      | error e => simp [makeFrontends, hmf, hmt] at h
      | ok fs1 =>
        simp only [makeFrontends, hmf, hmt, Except.ok.injEq] at h
        subst h
        rcases List.mem_cons.mp hq with rfl | hq1
        · refine ⟨(n, c), List.mem_cons_self _ _, ?_⟩
          cases hr : resolve c.listen_addr with
          | none => simp [make_frontend, hr] at hmf
          | some a =>
            cases hfind : bs.find? (fun q2 => q2.1 == c.backend) with
            | none => simp [make_frontend, hr, hfind] at hmf
            | some pb =>
              simp only [make_frontend, hr, hfind, Except.ok.injEq] at hmf
              subst hmf
              rfl
        · obtain ⟨p, hp, hpr⟩ := ih fs1 hmt q hq1
          exact ⟨p, List.mem_cons_of_mem _ hp, hpr⟩

/-- A still-unmatched `(token, addr)` pair whose address no built
frontend listens on survives the diff loop. -/
theorem diffListeners_avail_mem (tok : Nat) (a : SockAddr) :
    ∀ (fs : List (String × FrontendM)) (slab : Slab ListenerM)
      (avail : List (Nat × SockAddr)) (to_add : List (SockAddr × FrontendM)),
      (tok, a) ∈ avail →
      (∀ q ∈ fs, q.2.listen_addr ≠ a) →
      (tok, a) ∈ (diffListeners slab avail to_add fs).2.1 := by
  intro fs
  induction fs with
  | nil =>
    intro slab avail to_add hmem hne
    simpa [diffListeners] using hmem
  | cons r t ih =>
    intro slab avail to_add hmem hne
    obtain ⟨n, f⟩ := r
    have hfa : f.listen_addr ≠ a := hne (n, f) (List.mem_cons_self _ _)
    have haf : a ≠ f.listen_addr := fun h => hfa h.symm
    unfold diffListeners
    cases hfind : avail.find? (fun p => p.2 == f.listen_addr) with
    | some hit =>
      apply ih
      · apply List.mem_filter.mpr
        refine ⟨hmem, ?_⟩
        simp [haf]
      · intro q hq
        exact hne q (List.mem_cons_of_mem _ hq)
    | none =>
      exact ih _ _ _ hmem (fun q hq => hne q (List.mem_cons_of_mem _ hq))

/-- The removal loop never re-occupies a freed listener slot. -/
theorem removeLoop_keeps_free :
    ∀ (todo : List Nat) (st : DriverStateM) (ops : List PollOp)
      (st2 : DriverStateM) (ops2 : List PollOp),
      removeLoop todo st ops = (st2, ops2, none) →
      ∀ t, st.listeners.containsSlot t = false →
        st2.listeners.containsSlot t = false := by
  intro todo
  induction todo with
  | nil =>
    intro st ops st2 ops2 h t ht
    simp only [removeLoop, Prod.mk.injEq] at h
    obtain ⟨h1, -, -⟩ := h
    subst h1
    exact ht
  | cons tk rest ih =>
    intro st ops st2 ops2 h t ht
    cases hrm : st.listeners.removeSlot tk with
    | none => simp [removeLoop, hrm] at h
    | some p =>
      obtain ⟨v, slab⟩ := p
      simp only [removeLoop, hrm] at h
      exact ih _ _ _ _ h t (slab_removeSlot_mono _ _ _ _ _ hrm ht)

/-- A completed removal loop frees the slot of every listed token and
emits its deregistration, while keeping the ops accumulated so far. -/
theorem removeLoop_spec :
    ∀ (todo : List Nat) (st : DriverStateM) (ops : List PollOp)
      (st2 : DriverStateM) (ops2 : List PollOp),
      removeLoop todo st ops = (st2, ops2, none) →
      (∀ o ∈ ops, o ∈ ops2) ∧
      (∀ t ∈ todo, st2.listeners.containsSlot t = false ∧
        (⟨.deregister, ListenerToken.as_raw_token t, false, false, false, false⟩ : PollOp) ∈ ops2) := by
  intro todo
  induction todo with
  | nil =>
    intro st ops st2 ops2 h
    simp only [removeLoop, Prod.mk.injEq] at h
    obtain ⟨-, h2, -⟩ := h
    subst h2
    exact ⟨fun o ho => ho, by simp⟩
  | cons tk rest ih =>
    intro st ops st2 ops2 h
    cases hrm : st.listeners.removeSlot tk with
    | none => simp [removeLoop, hrm] at h
    | some p =>
      obtain ⟨v, slab⟩ := p
      simp only [removeLoop, hrm] at h
      obtain ⟨hops, hrest⟩ := ih _ _ _ _ h
      constructor
      · intro o ho
        exact hops o (List.mem_append_left _ ho)
      · intro t ht
        rcases List.mem_cons.mp ht with rfl | ht1
        · refine ⟨removeLoop_keeps_free rest _ _ _ _ h t
            (slab_removeSlot_self _ _ _ _ hrm), ?_⟩
          exact hops _ (List.mem_append_right _ (by simp))
        · exact hrest t ht1

/-- A successful `get` exhibits the entry itself. -/
theorem slab_get_mem {α : Type} (s : Slab α) (t : Nat) (v : α)
    (h : s.get t = some v) : (t, v) ∈ s.entries := by
  unfold Slab.get at h
  cases hf : s.entries.find? (fun p => p.1 == t) with
  | none => rw [hf] at h; simp at h
  | some p =>
    rw [hf] at h
    simp only [Option.map_some', Option.some.injEq] at h
    have h1 := List.find?_some hf
    have h2 := List.mem_of_find?_eq_some hf
    simp only [beq_iff_eq] at h1
    obtain ⟨pk, pv⟩ := p
    simp only at h1 h
    subst h1
    subst h
    exact h2

/-- C7 amended. A listener whose listen address no new frontend
resolves to is removed from the listener slab and deregistered from
the poller *within* the `reconfigure` call (whenever the call runs to
completion); no pending-removal marking is involved. -/
theorem stale_listener_removed_within_reconfigure
    (resolve : String → Option SockAddr) (bindOk : SockAddr → Bool)
    (st : DriverStateM) (config : RootConfig) (tok : Nat) (l : ListenerM)
    (hget : st.listeners.get tok = some l)
    (habsent : ∀ p ∈ config.frontends, resolve p.2.listen_addr ≠ some l.listen_addr)
    (hok : (st.reconfigure resolve bindOk config).res = .ok ()) :
    (st.reconfigure resolve bindOk config).state.listeners.containsSlot tok = false ∧
    (⟨.deregister, ListenerToken.as_raw_token tok, false, false, false, false⟩ : PollOp) ∈
      (st.reconfigure resolve bindOk config).ops := by
  unfold DriverStateM.reconfigure at hok ⊢
  cases hmb : makeBackends resolve config.backends with
  | error e => simp [hmb] at hok
  | ok bs =>
    simp only [hmb] at hok ⊢
    cases hmf : makeFrontends resolve bs config.frontends with
    | error e => simp [hmf] at hok
    | ok fs =>
      simp only [hmf] at hok ⊢
      have hsurv : (tok, l.listen_addr) ∈
          (diffListeners st.listeners
            (st.listeners.entries.map (fun p => (p.1, p.2.listen_addr))) [] fs).2.1 := by
        apply diffListeners_avail_mem
        · exact List.mem_map_of_mem _ (slab_get_mem _ _ _ hget)
        · intro q hq heq
          obtain ⟨p, hp, hpr⟩ := makeFrontends_addrs resolve bs config.frontends fs hmf q hq
          exact habsent p hp (by rw [hpr, heq])
      rcases hbl : bindLoop bindOk
          (diffListeners st.listeners
            (st.listeners.entries.map (fun p => (p.1, p.2.listen_addr))) [] fs).2.2
          { st with listeners := (diffListeners st.listeners
            (st.listeners.entries.map (fun p => (p.1, p.2.listen_addr))) [] fs).1 }
          [] with ⟨st1, ops1, err1⟩
      cases err1 with
      | some e =>
        simp only [hbl] at hok
        simp at hok
      | none =>
        simp only [hbl] at hok ⊢
        rcases hrl : removeLoop
            ((diffListeners st.listeners
              (st.listeners.entries.map (fun p => (p.1, p.2.listen_addr))) [] fs).2.1.map
              (fun p => p.1)) st1 ops1 with ⟨st2, ops2, err2⟩
        cases err2 with
        | some e =>
          simp only [hrl] at hok
          simp at hok
        | none =>
          simp only [hrl] at hok ⊢
          obtain ⟨-, hall⟩ := removeLoop_spec _ _ _ _ _ hrl
          exact hall tok (List.mem_map_of_mem _ hsurv)

/-- C7 witness: the one-listener state reconfigured to the empty
configuration has its listener removed and deregistered by the call. -/
theorem stale_listener_removed_witness :
    (oneListenerState.reconfigure demoResolve (fun _ => true) emptyCfg).state.listeners.containsSlot 1 = false ∧
    (⟨.deregister, ListenerToken.as_raw_token 1, false, false, false, false⟩ : PollOp) ∈
      (oneListenerState.reconfigure demoResolve (fun _ => true) emptyCfg).ops :=
  stale_listener_removed_within_reconfigure demoResolve (fun _ => true)
    oneListenerState emptyCfg 1 lbListener rfl (by simp [emptyCfg]) rfl
